import Mathlib

/-!
Verification of the AgriPredict backend (Express server in `src/server.js`
and the database-backed variant bundled in `src/models/Notification.js`).
The definitions below are a shallow embedding of the request handlers and
middleware: external calls (`jwt.verify`, `bcrypt.compare`, `bcrypt.hash`)
become function parameters, the in-memory / ORM stores become Lean lists,
and JavaScript string operations are re-implemented on `List Char` with
JavaScript semantics.
-/

namespace AgriPredict

/-- JavaScript `String.prototype.split` with a single-character separator,
on the character list: every occurrence of the separator starts a new
field, and empty fields are kept (so `"a  b".split(' ') = ["a","","b"]`
and `"".split(' ') = [""]`). -/
def splitChar (sep : Char) : List Char → List (List Char)
  | [] => [[]]
  | c :: cs =>
    let r := splitChar sep cs
    if c = sep then [] :: r
    else
      match r with
      | [] => [[c]]
      | w :: ws => (c :: w) :: ws

/-- JavaScript `h.split(sep)` for a one-character `sep`, as a list of
strings. -/
def jsSplit (s : String) (sep : Char) : List String :=
  (splitChar sep s.data).map String.mk

/-- Result of `jwt.verify(token, JWT_SECRET, callback)`: the callback sees
either a `TokenExpiredError`, some other verification error, or the decoded
payload.  The verifier itself is an external library, so handlers are
parametrised by a function into this type. -/
inductive VerifyResult (α : Type) where
  | expired : VerifyResult α
  | invalid : VerifyResult α
  | ok : α → VerifyResult α
deriving DecidableEq, Repr

/-- Outcome of the `authenticateToken` middleware: either the request is
rejected with an HTTP status and the JSON body fields `error` and
`message`, or the decoded payload is attached as `req.user` and `next()`
runs the route handler. -/
inductive GateResult (α : Type) where
  | reject : Nat → String → String → GateResult α
  | proceed : α → GateResult α
deriving DecidableEq, Repr

/-- `authenticateToken` from `src/server.js` lines 121-155 (identical in
the database variant): reject 401 when the `Authorization` header is
absent; extract `authHeader.split(' ')[1]` and reject 401 when that is
`undefined` or the empty string; otherwise verify the token, mapping
`TokenExpiredError` to 401, any other verification error to 403, and
success to `req.user := decoded`. -/
def authenticateToken {α : Type} (authHeader : Option String)
    (verify : String → VerifyResult α) : GateResult α :=
  match authHeader with
  | none => .reject 401 "Access token required"
      "Please provide Authorization header with Bearer token"
  | some h =>
    match (jsSplit h ' ').get? 1 with
    | none => .reject 401 "Invalid token format"
        "Use format: Authorization: Bearer <token>"
    | some t =>
      if t = "" then
        .reject 401 "Invalid token format"
          "Use format: Authorization: Bearer <token>"
      else
        match verify t with
        | .expired => .reject 401 "Token expired" "Please login again"
        | .invalid => .reject 403 "Invalid token" "Token verification failed"
        | .ok d => .proceed d

end AgriPredict

namespace AgriPredict

/-- Splitting a concatenation `w ++ sep :: t` where `w` is free of the
separator yields `w` as the first field followed by the fields of `t`. -/
theorem splitChar_append (sep : Char) (w t : List Char) (hw : sep ∉ w) :
    splitChar sep (w ++ sep :: t) = w :: splitChar sep t := by
  induction w with
  | nil => simp [splitChar]
  | cons c cs ih =>
    have hc : c ≠ sep := fun h => hw (h ▸ List.mem_cons_self c cs)
    have hcs : sep ∉ cs := fun h => hw (List.mem_cons_of_mem c h)
    simp only [List.cons_append, splitChar, List.append_eq, ih hcs, if_neg hc]

/-- A separator-free list splits into a single field. -/
theorem splitChar_of_not_mem (sep : Char) (w : List Char) (hw : sep ∉ w) :
    splitChar sep w = [w] := by
  induction w with
  | nil => simp [splitChar]
  | cons c cs ih =>
    have hc : c ≠ sep := fun h => hw (h ▸ List.mem_cons_self c cs)
    have hcs : sep ∉ cs := fun h => hw (List.mem_cons_of_mem c h)
    simp only [splitChar, ih hcs, if_neg hc]

/-- The JWT payload signed at login in `src/server.js` lines 197-206:
`{ id, email, name, role }`. -/
structure TokenClaims where
  id : Nat
  email : String
  name : String
  role : String
deriving DecidableEq, Repr

/-- Modelled from the spec: the Token Service is the external
`jsonwebtoken` library, absent from the sources; per §4.1 a token is a
signed claim set with an absolute expiry 24 hours from issuance. -/
structure SessionToken where
  claims : TokenClaims
  exp : Int
deriving DecidableEq, Repr

/-- Modelled from the spec: `jwt.sign(payload, secret, expiresIn 24h)`
called at `now` (seconds) embeds the absolute expiry `now + 24h`. -/
def issueToken (now : Int) (c : TokenClaims) : SessionToken :=
  ⟨c, now + 24 * 60 * 60⟩

/-- Modelled from the spec: verification of an untampered token at clock
time `now` fails with `Expired` once the embedded expiry is reached and
otherwise yields the embedded claims. -/
def verifyToken (t : SessionToken) (now : Int) : VerifyResult TokenClaims :=
  if t.exp ≤ now then .expired else .ok t.claims

/-- A record of the in-memory `users` array of `src/server.js` lines
62-79: the `password` field stores the bcrypt hash. -/
structure StoredUser where
  id : Nat
  email : String
  password : String
  name : String
  role : String
deriving DecidableEq, Repr

/-- The public projection `{ id, name, email, role }` returned to
clients. -/
structure PublicUser where
  id : Nat
  name : String
  email : String
  role : String
deriving DecidableEq, Repr

/-- Response of `POST /api/login`: an error status with the JSON fields
`error` and `message`, or the success body
`{ success, token, user, expiresIn }`. -/
inductive LoginResult where
  | failure : Nat → String → String → LoginResult
  | success : SessionToken → PublicUser → String → LoginResult
deriving DecidableEq, Repr

/-- The `POST /api/login` handler of `src/server.js` lines 169-229, after
validation: look up the user by email, reject 401 `Invalid credentials`
when absent, compare the password against the stored hash with
`bcrypt.compare` (a parameter here), reject with the identical 401 body on
mismatch, and otherwise sign a 24h token over `{id,email,name,role}`. -/
def login (users : List StoredUser) (email password : String)
    (bcryptCompare : String → String → Bool) (now : Int) : LoginResult :=
  match users.find? (fun u => u.email == email) with
  | none => .failure 401 "Invalid credentials" "Email or password is incorrect"
  | some u =>
    if bcryptCompare password u.password then
      .success (issueToken now ⟨u.id, u.email, u.name, u.role⟩)
        ⟨u.id, u.name, u.email, u.role⟩ "24h"
    else
      .failure 401 "Invalid credentials" "Email or password is incorrect"

/-- JavaScript `s.toLowerCase()` on the character data (faithful on the
ASCII strings the handlers match on). -/
def jsToLowerCase (s : String) : String :=
  String.mk (s.data.map Char.toLower)

/-- Modelled from the spec: the `express-validator` chain
`body('email').isEmail().normalizeEmail()` is an external library; per
§4.3 the email is case-normalized before the handler sees it, which its
default `all_lowercase` realises as lowercasing. -/
def normalizeEmail (s : String) : String :=
  jsToLowerCase s

/-- A row of the `users` table defined in `src/models/user.js`:
`{id, name, email (unique), password_hash, role}`. -/
structure DbUser where
  id : Nat
  name : String
  email : String
  password_hash : String
  role : String
deriving DecidableEq, Repr

/-- Response of `POST /api/register`: an error status with JSON fields
`error`/`message`, or status 201 with a message and the public user
projection `{id, name, email, role}`. -/
inductive RegisterResult where
  | failure : Nat → String → String → RegisterResult
  | created : Nat → String → PublicUser → RegisterResult
deriving DecidableEq, Repr

/-- The `POST /api/register` handler of the database-backed server
(`src/models/Notification.js`, bundled server, lines 243-290), after
validation has normalized the email: reject 400 when a user with that
email exists (`User.findOne({where:{email}})`), otherwise persist a new
row with `password_hash = bcrypt.hash(password, 10)` (the hash is a
parameter here) and default role `farmer`, answering 201 with the public
projection. -/
def register (store : List DbUser) (bcryptHash : String → Nat → String)
    (nextId : Nat) (name rawEmail password : String) :
    List DbUser × RegisterResult :=
  let email := normalizeEmail rawEmail
  match store.find? (fun u => u.email == email) with
  | some _ => (store, .failure 400 "User already exists"
      "An account with this email already exists")
  | none =>
    let u : DbUser := ⟨nextId, name, email, bcryptHash password 10, "farmer"⟩
    (store ++ [u],
      .created 201 "User registered successfully" ⟨u.id, u.name, u.email, u.role⟩)

/-- Whether `pat` occurs as a contiguous run somewhere in the character
list (scanning every suffix). -/
def containsSubAux (pat : List Char) : List Char → Bool
  | [] => List.isPrefixOf pat []
  | c :: rest => List.isPrefixOf pat (c :: rest) || containsSubAux pat rest

/-- JavaScript `s.includes(pat)`. -/
def jsIncludes (s pat : String) : Bool :=
  containsSubAux pat.data s.data

/-- The fixed maize/corn reply of the chatbot. -/
def maizeResponse : String :=
  "For maize cultivation: ensure 75cm spacing between rows and 25cm between plants. Apply DAP fertilizer at planting (50kg/acre) and top-dress with CAN after 6 weeks. Watch for fall armyworm during early growth stages."

/-- The chatbot keyword chain of `POST /api/chat` (`src/server.js` lines
408-440, identical in the database variant): lower-case the message, then
take the first matching rule — greeting, weather, maize/corn, beans,
coffee, pest, fertilizer, harvest — falling back to a generic prompt.
Returns the response text and the category tag. -/
def chatRespond (userName message : String) : String × String :=
  let lower := jsToLowerCase message
  if jsIncludes lower "hello" || jsIncludes lower "hi" || jsIncludes lower "hey" then
    ("Hello " ++ userName ++ "! I\x27m AgriBot, your AI farming assistant. How can I help you today?",
      "greeting")
  else if jsIncludes lower "weather" || jsIncludes lower "rain" || jsIncludes lower "temperature" then
    ("Based on current weather patterns, conditions look favorable for the next week. I recommend monitoring soil moisture levels and checking for any pest activity after rainfall.",
      "weather")
  else if jsIncludes lower "maize" || jsIncludes lower "corn" then
    (maizeResponse, "crops")
  else if jsIncludes lower "beans" then
    ("Beans require well-drained soil and moderate watering. Plant at 30cm x 10cm spacing. Avoid waterlogging which causes root rot. Apply rhizobia inoculant for better nitrogen fixation.",
      "crops")
  else if jsIncludes lower "coffee" then
    ("Coffee plants need partial shade and consistent moisture. Prune regularly to maintain 2-3 main stems. Watch for coffee berry disease and leaf rust. Harvest when berries are deep red.",
      "crops")
  else if jsIncludes lower "pest" || jsIncludes lower "insect" || jsIncludes lower "disease" then
    ("For effective pest management: 1) Regular field monitoring (2x weekly), 2) Use integrated pest management (IPM), 3) Encourage beneficial insects, 4) Apply targeted treatments only when necessary. What specific pest are you dealing with?",
      "pest")
  else if jsIncludes lower "fertilizer" || jsIncludes lower "nutrient" then
    ("Soil testing is key for proper fertilization. Generally: Apply organic matter annually, use DAP/NPK at planting, and top-dress with nitrogen during active growth. Avoid over-fertilization which can reduce quality.",
      "fertilizer")
  else if jsIncludes lower "harvest" || jsIncludes lower "when to harvest" then
    ("Harvest timing depends on your crop and intended use. Look for visual cues like color change, moisture content, and field drying. Early morning harvesting often gives better quality. What crop are you planning to harvest?",
      "harvest")
  else
    ("I\x27m here to help with your farming questions. Could you be more specific about what you\x27d like to know?",
      "general")

/-- A row of the `chat_history` table defined in
`src/models/ChatHistory.js`: `{user_id, message, sender, category}`. -/
structure ChatRecord where
  user_id : Nat
  message : String
  sender : String
  category : String
deriving DecidableEq, Repr

/-- Success body of `POST /api/chat`: `{success, response, category,
user}`. -/
structure ChatResponse where
  response : String
  category : String
  user : String
deriving DecidableEq, Repr

/-- The `POST /api/chat` handler of the database-backed server
(`src/models/Notification.js`, bundled server, lines 537-609): first
persist the inbound message with `sender = user` and the hardcoded
category `general`, then compute the keyword-chain reply, persist it with
`sender = bot` and the matched category, and answer with the reply. -/
def chatHandler (store : List ChatRecord) (userId : Nat)
    (userName message : String) : List ChatRecord × ChatResponse :=
  let store1 := store ++ [⟨userId, message, "user", "general"⟩]
  let rc := chatRespond userName message
  (store1 ++ [⟨userId, rc.1, "bot", rc.2⟩], ⟨rc.1, rc.2, userName⟩)

/-- The property names of JavaScript `Object.prototype`, which a bracket
lookup `obj[key]` on an object literal finds through the prototype chain;
each holds a truthy value (a function, or for `__proto__` the prototype
object itself). -/
def objectPrototypeKeys : List String :=
  ["constructor", "hasOwnProperty", "isPrototypeOf", "propertyIsEnumerable",
   "toLocaleString", "toString", "valueOf", "__defineGetter__",
   "__defineSetter__", "__lookupGetter__", "__lookupSetter__", "__proto__"]

/-- Value of the bracket lookup `cropMultipliers[crop]`: an own
`{base, variance}` entry, a truthy member inherited from
`Object.prototype` (so no numeric fields), or `undefined`. -/
inductive CropLookup where
  | pair : ℚ × ℚ → CropLookup
  | inherited : CropLookup
  | missing : CropLookup
deriving DecidableEq, Repr

/-- The lookup `cropMultipliers[crop]` of `POST /api/predict`
(`src/server.js` lines 341-351): the seven own entries of the object
literal, then the prototype chain, then `undefined`. -/
def cropMultipliersGet (crop : String) : CropLookup :=
  if crop = "Maize" then .pair (3.2, 0.8)
  else if crop = "Beans" then .pair (1.8, 0.4)
  else if crop = "Coffee" then .pair (2.1, 0.6)
  else if crop = "Tea" then .pair (2.8, 0.5)
  else if crop = "Wheat" then .pair (2.5, 0.7)
  else if crop = "Rice" then .pair (4.2, 1.0)
  else if crop = "Sorghum" then .pair (2.0, 0.5)
  else if crop ∈ objectPrototypeKeys then .inherited
  else .missing

/-- `cropMultipliers[crop] || cropMultipliers['Maize']` from
`src/server.js` line 351: only `undefined` is falsy and falls back to the
Maize entry; a truthy inherited `Object.prototype` member does not. -/
def cropDataJs (crop : String) : CropLookup :=
  match cropMultipliersGet crop with
  | .missing => cropMultipliersGet "Maize"
  | r => r

/-- JavaScript `parseFloat(x.toFixed(1))`: rounding to the nearest tenth
(half up), over the rationals. -/
def jsToFixed1 (q : ℚ) : ℚ :=
  (Int.floor (q * 10 + 1 / 2) : ℚ) / 10

/-- The yield estimate of `/api/predict`:
`parseFloat((cropData.base + (Math.random() - 0.5) * cropData.variance).toFixed(1))`
with the draw `r ∈ [0,1)` made explicit.  When the lookup produced an
inherited `Object.prototype` member, `cropData.base` and
`cropData.variance` are `undefined`, the arithmetic yields `NaN`
(modelled `none`), and no Maize fallback applies. -/
def yieldEstimateJs (crop : String) (r : ℚ) : Option ℚ :=
  match cropDataJs crop with
  | .pair (b, v) => some (jsToFixed1 (b + (r - 1 / 2) * v))
  | _ => none

/-- The confidence of `/api/predict`:
`Math.floor(Math.random() * 15 + 85)` with the draw `r ∈ [0,1)` made
explicit. -/
def confidence (r : ℚ) : ℤ :=
  Int.floor (r * 15 + 85)

/-- The gate result only depends on the extracted second field of the
header. -/
theorem authenticateToken_congr {α : Type} (h₁ h₂ : String)
    (verify : String → VerifyResult α)
    (he : (jsSplit h₁ ' ').get? 1 = (jsSplit h₂ ' ').get? 1) :
    authenticateToken (some h₁) verify = authenticateToken (some h₂) verify := by
  unfold authenticateToken
  dsimp only
  rw [he]

/-- Extraction from a header `w ++ " " ++ t` with a space-free scheme word
`w`: the second field is the first field of `t`. -/
theorem extract_scheme_space (w t : String) (hw : ' ' ∉ w.data) :
    (jsSplit (w ++ " " ++ t) ' ').get? 1 =
      ((splitChar ' ' t.data).map String.mk).get? 0 := by
  have hdata : (w ++ " " ++ t).data = w.data ++ ' ' :: t.data := by
    show (w.data ++ " ".data) ++ t.data = _
    simp
  simp only [jsSplit, hdata, splitChar_append ' ' w.data t.data hw,
    List.map_cons, List.get?]

/-- C2 counterexample: the header `Basic abc` is present and lacks the
`Bearer ` prefix, yet the gate does not answer 401 MalformedHeader: the
word `abc` is extracted and verified, so an invalid token yields 403 and a
valid one lets the handler run. -/
theorem claim2_not_bearer_shape_counterexample :
    authenticateToken (α := Nat) (some "Basic abc")
        (fun _ => VerifyResult.invalid) =
      GateResult.reject 403 "Invalid token" "Token verification failed"
    ∧ authenticateToken (α := Nat) (some "Basic abc")
        (fun _ => VerifyResult.ok 7) = GateResult.proceed 7
    ∧ (403 : Nat) ≠ 401 := by
  refine ⟨rfl, rfl, by decide⟩

/-- C2 (amended): a missing Authorization header is rejected 401
`Access token required`; a header present but with no nonempty second
space-separated word (so in particular `Bearer` alone or `Bearer<token>`)
is rejected 401 `Invalid token format`; in both cases the result is a
rejection, never `proceed`, so the handler does not run.  The scheme word
itself is not inspected. -/
theorem claim2_missing_or_unextractable_is_401 {α : Type} :
    (∀ verify : String → VerifyResult α,
      authenticateToken none verify =
        GateResult.reject 401 "Access token required"
          "Please provide Authorization header with Bearer token")
    ∧ (∀ (h : String) (verify : String → VerifyResult α),
      (jsSplit h ' ').get? 1 = none ∨ (jsSplit h ' ').get? 1 = some "" →
      authenticateToken (some h) verify =
        GateResult.reject 401 "Invalid token format"
          "Use format: Authorization: Bearer <token>") := by
  constructor
  · intro verify
    rfl
  · intro h verify hx
    unfold authenticateToken
    dsimp only
    rcases hx with hx | hx
    · rw [hx]
    · rw [hx]
      simp

/-- C2 amended, witness: concrete runs for the missing-header case, the
no-space case (`Bearer` alone) and the empty-second-field case. -/
theorem claim2_missing_or_unextractable_is_401_witness :
    authenticateToken (α := Nat) none (fun _ => VerifyResult.ok 7) =
      GateResult.reject 401 "Access token required"
        "Please provide Authorization header with Bearer token"
    ∧ authenticateToken (α := Nat) (some "Bearer") (fun _ => VerifyResult.ok 7) =
      GateResult.reject 401 "Invalid token format"
        "Use format: Authorization: Bearer <token>"
    ∧ authenticateToken (α := Nat) (some "Bearer ") (fun _ => VerifyResult.ok 7) =
      GateResult.reject 401 "Invalid token format"
        "Use format: Authorization: Bearer <token>" :=
  ⟨(claim2_missing_or_unextractable_is_401 (α := Nat)).1 _,
   (claim2_missing_or_unextractable_is_401 (α := Nat)).2 "Bearer" _
     (Or.inl (by decide)),
   (claim2_missing_or_unextractable_is_401 (α := Nat)).2 "Bearer " _
     (Or.inr (by decide))⟩

/-- C3: once a nonempty token is extracted from the header, verification
decides the outcome: expiry gives 401 with the distinct re-login message,
any other failure gives 403, and success attaches the decoded identity and
lets the handler run. -/
theorem claim3_verify_outcome_mapping {α : Type} (h t : String)
    (verify : String → VerifyResult α)
    (hex : (jsSplit h ' ').get? 1 = some t) (hne : t ≠ "") :
    (verify t = VerifyResult.expired →
      authenticateToken (some h) verify =
        GateResult.reject 401 "Token expired" "Please login again")
    ∧ (verify t = VerifyResult.invalid →
      authenticateToken (some h) verify =
        GateResult.reject 403 "Invalid token" "Token verification failed")
    ∧ (∀ d, verify t = VerifyResult.ok d →
      authenticateToken (some h) verify = GateResult.proceed d) := by
  unfold authenticateToken
  dsimp only
  rw [hex]
  simp only [if_neg hne]
  refine ⟨fun hv => by rw [hv], fun hv => by rw [hv], fun d hv => by rw [hv]⟩

/-- C3 witness: the mapping evaluated on the header `Bearer abc` under the
three possible verification outcomes. -/
theorem claim3_verify_outcome_mapping_witness :
    authenticateToken (α := Nat) (some "Bearer abc")
        (fun _ => VerifyResult.expired) =
      GateResult.reject 401 "Token expired" "Please login again"
    ∧ authenticateToken (α := Nat) (some "Bearer abc")
        (fun _ => VerifyResult.invalid) =
      GateResult.reject 403 "Invalid token" "Token verification failed"
    ∧ authenticateToken (α := Nat) (some "Bearer abc")
        (fun _ => VerifyResult.ok 7) = GateResult.proceed 7 :=
  ⟨(claim3_verify_outcome_mapping "Bearer abc" "abc" _ (by decide) (by decide)).1 rfl,
   (claim3_verify_outcome_mapping "Bearer abc" "abc" _ (by decide) (by decide)).2.1 rfl,
   (claim3_verify_outcome_mapping "Bearer abc" "abc" _ (by decide) (by decide)).2.2 7 rfl⟩

/-- Every own `{base, variance}` entry of the crop table has variance in
`[2/5, 1]`. -/
theorem cropMultipliersGet_pair_variance (crop : String) (b v : ℚ)
    (h : cropMultipliersGet crop = CropLookup.pair (b, v)) :
    2 / 5 ≤ v ∧ v ≤ 1 := by
  unfold cropMultipliersGet at h
  split_ifs at h
  all_goals try
    (injection h with h2
     rw [Prod.mk.injEq] at h2
     obtain ⟨h3, h4⟩ := h2
     subst h3
     subst h4
     constructor <;> norm_num)

/-- Any pair the `||`-fallback lookup produces, the Maize fallback
included, has variance in `[2/5, 1]`. -/
theorem cropDataJs_pair_variance (crop : String) (b v : ℚ)
    (h : cropDataJs crop = CropLookup.pair (b, v)) :
    2 / 5 ≤ v ∧ v ≤ 1 := by
  unfold cropDataJs at h
  cases hg : cropMultipliersGet crop with
  | pair p =>
    rw [hg] at h
    dsimp only at h
    injection h with h2
    subst h2
    exact cropMultipliersGet_pair_variance crop b v hg
  | inherited =>
    rw [hg] at h
    exact CropLookup.noConfusion h
  | missing =>
    rw [hg] at h
    exact cropMultipliersGet_pair_variance "Maize" b v h

/-- Rounding to the nearest tenth moves a rational by at most `1/20`. -/
theorem jsToFixed1_bounds (q : ℚ) :
    q - 1 / 20 < jsToFixed1 q ∧ jsToFixed1 q ≤ q + 1 / 20 := by
  unfold jsToFixed1
  have h1 : (Int.floor (q * 10 + 1 / 2) : ℚ) ≤ q * 10 + 1 / 2 :=
    Int.floor_le _
  have h2 : q * 10 + 1 / 2 - 1 < (Int.floor (q * 10 + 1 / 2) : ℚ) :=
    Int.sub_one_lt_floor _
  constructor
  · rw [lt_div_iff₀ (by norm_num : (0:ℚ) < 10)]
    linarith
  · rw [div_le_iff₀ (by norm_num : (0:ℚ) < 10)]
    linarith

/-- C9: the gate never inspects the scheme word: for any space-free scheme
word `w`, the header `w ++ " " ++ t` authenticates exactly as
`Bearer ++ " " ++ t` does, and a header with no space at all is rejected
401 with the format error. -/
theorem claim9_scheme_word_ignored {α : Type} :
    (∀ (w t : String) (verify : String → VerifyResult α), ' ' ∉ w.data →
      authenticateToken (some (w ++ " " ++ t)) verify =
        authenticateToken (some ("Bearer" ++ " " ++ t)) verify)
    ∧ (∀ (h : String) (verify : String → VerifyResult α), ' ' ∉ h.data →
      authenticateToken (some h) verify =
        GateResult.reject 401 "Invalid token format"
          "Use format: Authorization: Bearer <token>") := by
  constructor
  · intro w t verify hw
    apply authenticateToken_congr
    rw [extract_scheme_space w t hw,
      extract_scheme_space "Bearer" t (by decide)]
  · intro h verify hh
    unfold authenticateToken
    dsimp only
    rw [show (jsSplit h ' ').get? 1 = none by
      simp [jsSplit, splitChar_of_not_mem ' ' h.data hh]]

/-- C9 witness: `Basic abc` behaves exactly as `Bearer abc` (here under a
verifier accepting `abc`), and the space-free headers `Bearer` and
`Bearerabc` are rejected 401. -/
theorem claim9_scheme_word_ignored_witness :
    authenticateToken (α := Nat) (some ("Basic" ++ " " ++ "abc"))
        (fun _ => VerifyResult.ok 7) =
      authenticateToken (α := Nat) (some ("Bearer" ++ " " ++ "abc"))
        (fun _ => VerifyResult.ok 7)
    ∧ authenticateToken (α := Nat) (some "Bearerabc")
        (fun _ => VerifyResult.ok 7) =
      GateResult.reject 401 "Invalid token format"
        "Use format: Authorization: Bearer <token>" :=
  ⟨(claim9_scheme_word_ignored (α := Nat)).1 "Basic" "abc" _ (by decide),
   (claim9_scheme_word_ignored (α := Nat)).2 "Bearerabc" _ (by decide)⟩

/-- C1: both login failure causes — email matching no stored user, and a
password that fails bcrypt verification against the stored hash — produce
the one fixed response: status 401 with body
`Invalid credentials` / `Email or password is incorrect`, so the caller
cannot tell them apart. -/
theorem claim1_login_failures_uniform (users : List StoredUser)
    (email pw : String) (cmp : String → String → Bool) (now : Int) :
    (users.find? (fun u => u.email == email) = none →
      login users email pw cmp now =
        LoginResult.failure 401 "Invalid credentials"
          "Email or password is incorrect")
    ∧ (∀ u, users.find? (fun v => v.email == email) = some u →
      cmp pw u.password = false →
      login users email pw cmp now =
        LoginResult.failure 401 "Invalid credentials"
          "Email or password is incorrect") := by
  constructor
  · intro h
    unfold login
    rw [h]
  · intro u hu hc
    unfold login
    rw [hu]
    simp [hc]

/-- C1 witness: in a store holding only `farmer@example.com`, a login for
an unknown email and a login with the right email but a failing password
comparison return the identical 401 failure. -/
theorem claim1_login_failures_uniform_witness :
    login [⟨1, "farmer@example.com", "storedhash", "John Farmer", "farmer"⟩]
        "nobody@example.com" "password123" (fun _ _ => false) 0 =
      LoginResult.failure 401 "Invalid credentials"
        "Email or password is incorrect"
    ∧ login [⟨1, "farmer@example.com", "storedhash", "John Farmer", "farmer"⟩]
        "farmer@example.com" "wrongpass" (fun _ _ => false) 0 =
      LoginResult.failure 401 "Invalid credentials"
        "Email or password is incorrect" :=
  ⟨(claim1_login_failures_uniform _ _ _ _ 0).1 (by decide),
   (claim1_login_failures_uniform _ _ _ _ 0).2
     ⟨1, "farmer@example.com", "storedhash", "John Farmer", "farmer"⟩
     (by decide) rfl⟩

/-- C4: a token issued at `T` embeds the absolute expiry `T + 24h`, is
accepted (yielding its claims) at every time strictly before that expiry —
in particular at `T + 23h59m` — and is rejected as expired at every time
after it — in particular at `T + 24h01m`. -/
theorem claim4_token_lifetime (T : Int) (c : TokenClaims) :
    (issueToken T c).exp = T + 24 * 60 * 60
    ∧ (∀ t : Int, t < T + 24 * 60 * 60 →
      verifyToken (issueToken T c) t = VerifyResult.ok c)
    ∧ (∀ t : Int, T + 24 * 60 * 60 < t →
      verifyToken (issueToken T c) t = VerifyResult.expired)
    ∧ verifyToken (issueToken T c) (T + 23 * 60 * 60 + 59 * 60) =
      VerifyResult.ok c
    ∧ verifyToken (issueToken T c) (T + 24 * 60 * 60 + 60) =
      VerifyResult.expired := by
  have hok : ∀ t : Int, t < T + 24 * 60 * 60 →
      verifyToken (issueToken T c) t = VerifyResult.ok c := by
    intro t ht
    unfold verifyToken issueToken
    rw [if_neg (not_le.mpr ht)]
  have hexp : ∀ t : Int, T + 24 * 60 * 60 < t →
      verifyToken (issueToken T c) t = VerifyResult.expired := by
    intro t ht
    unfold verifyToken issueToken
    rw [if_pos (le_of_lt ht)]
  exact ⟨rfl, hok, hexp, hok _ (by omega), hexp _ (by omega)⟩

/-- C4 witness: concrete acceptance at `23h59m` and rejection at `24h01m`
for a token issued at time 0. -/
theorem claim4_token_lifetime_witness :
    verifyToken (issueToken 0 ⟨1, "farmer@example.com", "John Farmer", "farmer"⟩)
        (23 * 60 * 60 + 59 * 60) =
      VerifyResult.ok ⟨1, "farmer@example.com", "John Farmer", "farmer"⟩
    ∧ verifyToken (issueToken 0 ⟨1, "farmer@example.com", "John Farmer", "farmer"⟩)
        (24 * 60 * 60 + 60) = VerifyResult.expired :=
  ⟨(claim4_token_lifetime 0 _).2.1 _ (by omega),
   (claim4_token_lifetime 0 _).2.2.1 _ (by omega)⟩

/-- C5: a registration whose case-normalized email equals the email of a
user already in the store answers 400 with the duplicate-email body and
leaves the store exactly as it was — no second record is created. -/
theorem claim5_duplicate_email_conflict (store : List DbUser)
    (bcryptHash : String → Nat → String) (nextId : Nat)
    (name rawEmail password : String) (u : DbUser) (hu : u ∈ store)
    (he : u.email = normalizeEmail rawEmail) :
    register store bcryptHash nextId name rawEmail password =
      (store, RegisterResult.failure 400 "User already exists"
        "An account with this email already exists") := by
  have hsome : (store.find? (fun v => v.email == normalizeEmail rawEmail)).isSome := by
    rw [List.find?_isSome]
    exact ⟨u, hu, by simp [he]⟩
  obtain ⟨v, hv⟩ := Option.isSome_iff_exists.mp hsome
  simp only [register, hv]

/-- C5 witness: registering `Farmer@Example.COM` against a store already
holding `farmer@example.com` is refused and the store is untouched. -/
theorem claim5_duplicate_email_conflict_witness :
    register [⟨1, "John Farmer", "farmer@example.com", "storedhash", "farmer"⟩]
        (fun p _ => String.append p "#10") 2 "Janet" "Farmer@Example.COM"
        "password456" =
      ([⟨1, "John Farmer", "farmer@example.com", "storedhash", "farmer"⟩],
        RegisterResult.failure 400 "User already exists"
          "An account with this email already exists") :=
  claim5_duplicate_email_conflict _ _ 2 "Janet" "Farmer@Example.COM"
    "password456" ⟨1, "John Farmer", "farmer@example.com", "storedhash", "farmer"⟩
    (by decide) (by decide)

/-- C8: a registration with a fresh (normalized) email appends exactly one
record, whose `password_hash` is the bcrypt hash of the password at cost
factor 10 and whose role is `farmer`, and answers 201 with a user object
holding only id, name, email and role — the hash appears nowhere in the
response. -/
theorem claim8_success_stores_hash_and_projects (store : List DbUser)
    (bcryptHash : String → Nat → String) (nextId : Nat)
    (name rawEmail password : String)
    (hnew : store.find? (fun u => u.email == normalizeEmail rawEmail) = none) :
    (register store bcryptHash nextId name rawEmail password).1 =
      store ++ [⟨nextId, name, normalizeEmail rawEmail,
        bcryptHash password 10, "farmer"⟩]
    ∧ (register store bcryptHash nextId name rawEmail password).2 =
      RegisterResult.created 201 "User registered successfully"
        ⟨nextId, name, normalizeEmail rawEmail, "farmer"⟩ := by
  constructor <;> simp only [register, hnew]

/-- C8 witness: registering `Alice@Example.com` into an empty store with a
stand-in bcrypt function stores the hashed password at cost 10 under role
`farmer` and answers with the four-field public projection. -/
theorem claim8_success_stores_hash_and_projects_witness :
    (register [] (fun p _ => String.append p "#10") 1 "Alice"
        "Alice@Example.com" "secret1").1 =
      [⟨1, "Alice", "alice@example.com", "secret1#10", "farmer"⟩]
    ∧ (register [] (fun p _ => String.append p "#10") 1 "Alice"
        "Alice@Example.com" "secret1").2 =
      RegisterResult.created 201 "User registered successfully"
        ⟨1, "Alice", "alice@example.com", "farmer"⟩ := by
  have h := claim8_success_stores_hash_and_projects []
    (fun p _ => String.append p "#10") 1 "Alice" "Alice@Example.com"
    "secret1" rfl
  exact ⟨h.1.trans (by decide), h.2.trans (by decide)⟩

/-- C7 counterexample: the message `hi maize` contains `maize`, yet the
chatbot answers with category `greeting`, not `crops`, because the
greeting rule is tested before the maize rule. -/
theorem claim7_maize_preempted_counterexample :
    jsIncludes (jsToLowerCase "hi maize") "maize" = true
    ∧ (chatRespond "John Farmer" "hi maize").2 = "greeting"
    ∧ "greeting" ≠ "crops" := by
  refine ⟨by decide, by decide, by decide⟩

/-- C7 (amended): a message containing `maize` in any letter case and
containing none of the keywords of the earlier greeting and weather rules
(`hello`, `hi`, `hey`, `weather`, `rain`, `temperature`) gets the fixed
maize-specific response with category `crops`, regardless of the
surrounding text. -/
theorem claim7_maize_response (userName message : String)
    (hm : jsIncludes (jsToLowerCase message) "maize" = true)
    (h1 : jsIncludes (jsToLowerCase message) "hello" = false)
    (h2 : jsIncludes (jsToLowerCase message) "hi" = false)
    (h3 : jsIncludes (jsToLowerCase message) "hey" = false)
    (h4 : jsIncludes (jsToLowerCase message) "weather" = false)
    (h5 : jsIncludes (jsToLowerCase message) "rain" = false)
    (h6 : jsIncludes (jsToLowerCase message) "temperature" = false) :
    chatRespond userName message = (maizeResponse, "crops") := by
  unfold chatRespond
  simp only [hm, h1, h2, h3, h4, h5, h6, Bool.false_or, Bool.or_false,
    Bool.true_or, Bool.false_eq_true, if_false, if_true]

/-- C7 amended, witness: the capitalized one-word message `Maize` yields
the fixed maize response with category `crops`. -/
theorem claim7_maize_response_witness :
    chatRespond "John Farmer" "Maize" = (maizeResponse, "crops") :=
  claim7_maize_response "John Farmer" "Maize" (by decide) (by decide)
    (by decide) (by decide) (by decide) (by decide) (by decide)

/-- C10: every successful chat appends exactly two records for the
requesting user: the inbound message with `sender = user` and category
`general` whatever rule later matches, then the bot reply with
`sender = bot` carrying the matched category. -/
theorem claim10_chat_appends_exactly_two (store : List ChatRecord)
    (userId : Nat) (userName message : String) :
    (chatHandler store userId userName message).1 =
      store ++ [⟨userId, message, "user", "general"⟩,
        ⟨userId, (chatRespond userName message).1, "bot",
          (chatRespond userName message).2⟩]
    ∧ (chatHandler store userId userName message).1.length =
      store.length + 2 := by
  constructor
  · simp [chatHandler]
  · simp [chatHandler]

/-- C6 counterexample: `toString` is not one of the seven known crops,
yet the Maize pair is not used: the bracket lookup finds the inherited
`Object.prototype.toString`, which is truthy, so the `||` fallback never
fires and the yield estimate is `NaN` — inside no `base ± variance`
band. -/
theorem claim6_prototype_key_counterexample :
    "toString" ∉ ["Maize", "Beans", "Coffee", "Tea", "Wheat", "Rice", "Sorghum"]
    ∧ cropDataJs "toString" = CropLookup.inherited
    ∧ cropDataJs "toString" ≠ CropLookup.pair (3.2, 0.8)
    ∧ yieldEstimateJs "toString" (1 / 2) = none := by
  refine ⟨by decide, by decide, by decide, by decide⟩

/-- C6 (amended): whatever the two random draws in `[0,1)` produce, the
returned confidence lies in `[85,100]`, and whenever the crop lookup
yields a `{base, variance}` pair the yield estimate is a number within
`base ± variance` of it; a crop that is neither one of the seven known
ones nor the name of an `Object.prototype` member maps to the Maize pair
`(3.2, 0.8)`, while a crop naming an `Object.prototype` member escapes
the fallback and produces a `NaN` yield estimate. -/
theorem claim6_predict_in_documented_bands (crop : String) (r₁ r₂ : ℚ)
    (hr₁0 : 0 ≤ r₁) (hr₁1 : r₁ < 1) (hr₂0 : 0 ≤ r₂) (hr₂1 : r₂ < 1) :
    (85 ≤ confidence r₂ ∧ confidence r₂ ≤ 100)
    ∧ (∀ b v, cropDataJs crop = CropLookup.pair (b, v) →
      yieldEstimateJs crop r₁ = some (jsToFixed1 (b + (r₁ - 1 / 2) * v))
      ∧ b - v ≤ jsToFixed1 (b + (r₁ - 1 / 2) * v)
      ∧ jsToFixed1 (b + (r₁ - 1 / 2) * v) ≤ b + v)
    ∧ (crop ∉ ["Maize", "Beans", "Coffee", "Tea", "Wheat", "Rice", "Sorghum"] →
      crop ∉ objectPrototypeKeys →
      cropDataJs crop = CropLookup.pair (3.2, 0.8))
    ∧ (crop ∈ objectPrototypeKeys → yieldEstimateJs crop r₁ = none) := by
  refine ⟨⟨?_, ?_⟩, ?_, ?_, ?_⟩
  · unfold confidence
    exact Int.le_floor.mpr (by push_cast; linarith)
  · unfold confidence
    have h := Int.floor_le_floor (α := ℚ)
      (show r₂ * 15 + 85 ≤ ((100 : ℤ) : ℚ) by push_cast; linarith)
    rwa [Int.floor_intCast] at h
  · intro b v hbv
    obtain ⟨hv1, hv2⟩ := cropDataJs_pair_variance crop b v hbv
    have hv0 : (0 : ℚ) ≤ v := le_trans (by norm_num) hv1
    refine ⟨by unfold yieldEstimateJs; rw [hbv], ?_, ?_⟩
    · have hx : b - v / 2 ≤ b + (r₁ - 1 / 2) * v := by
        nlinarith [mul_nonneg hr₁0 hv0]
      have hf := (jsToFixed1_bounds (b + (r₁ - 1 / 2) * v)).1
      linarith
    · have hx : b + (r₁ - 1 / 2) * v ≤ b + v / 2 := by
        nlinarith [mul_nonneg (by linarith : (0:ℚ) ≤ 1 - r₁) hv0]
      have hf := (jsToFixed1_bounds (b + (r₁ - 1 / 2) * v)).2
      linarith
  · intro h7 hp
    have hmiss : cropMultipliersGet crop = CropLookup.missing := by
      simp only [List.mem_cons, List.not_mem_nil, or_false, not_or] at h7
      obtain ⟨n1, n2, n3, n4, n5, n6, n7⟩ := h7
      unfold cropMultipliersGet
      rw [if_neg n1, if_neg n2, if_neg n3, if_neg n4, if_neg n5, if_neg n6,
        if_neg n7, if_neg hp]
    unfold cropDataJs
    rw [hmiss]
    rfl
  · intro hp
    have hinh : cropDataJs crop = CropLookup.inherited := by
      simp only [objectPrototypeKeys, List.mem_cons, List.not_mem_nil,
        or_false] at hp
      rcases hp with rfl | rfl | rfl | rfl | rfl | rfl | rfl | rfl | rfl |
        rfl | rfl | rfl <;> decide
    unfold yieldEstimateJs
    rw [hinh]

/-- C6 amended, witness: with draws `1/3` and `1/2`, the unknown crop
`Potato` uses the Maize band and its estimate lies within `3.2 ± 0.8`,
while the prototype-key crop `toString` yields `NaN`. -/
theorem claim6_predict_in_documented_bands_witness :
    (85 ≤ confidence (1 / 2) ∧ confidence (1 / 2) ≤ 100)
    ∧ cropDataJs "Potato" = CropLookup.pair (3.2, 0.8)
    ∧ yieldEstimateJs "Potato" (1 / 3) =
      some (jsToFixed1 (3.2 + (1 / 3 - 1 / 2) * 0.8))
    ∧ (3.2 - 0.8 : ℚ) ≤ jsToFixed1 (3.2 + (1 / 3 - 1 / 2) * 0.8)
    ∧ jsToFixed1 (3.2 + (1 / 3 - 1 / 2) * 0.8) ≤ (3.2 + 0.8 : ℚ)
    ∧ yieldEstimateJs "toString" (1 / 3) = none := by
  have h := claim6_predict_in_documented_bands "Potato" (1 / 3) (1 / 2)
    (by norm_num) (by norm_num) (by norm_num) (by norm_num)
  have hts := claim6_predict_in_documented_bands "toString" (1 / 3) (1 / 2)
    (by norm_num) (by norm_num) (by norm_num) (by norm_num)
  have hpot : cropDataJs "Potato" = CropLookup.pair (3.2, 0.8) :=
    h.2.2.1 (by decide) (by decide)
  obtain ⟨he, hlo, hhi⟩ := h.2.1 3.2 0.8 hpot
  exact ⟨h.1, hpot, he, hlo, hhi, hts.2.2.2 (by decide)⟩

end AgriPredict
